import Mathlib

/-!
Verification of the tool dispatch and result-shaping layer of the
MARSH-WARDEN RAG chatbot, a shallow embedding of src/gemini_tools.py.

Modelling conventions:
- Python dynamic values that flow through tool arguments and document
  metadata become the inductive type PyVal, with pyStr modelling Python
  str coercion and pyToInt modelling the fallible int coercion.
- Python exceptions raised by the retrieval collaborators become the
  error branch of Except String; the dispatcher catch-all becomes a
  match at the boundary in execute_tool.
- Python dicts returned by handlers become the Envelope structure with
  an Option field per possibly-absent key.
- Python list slicing l with an end bound k, where k may be negative,
  becomes pyTake.
-/

/-- The single-quote character as a string, kept out of string literals
for hygiene; code point 39. -/
def squo : String := String.singleton (Char.ofNat 39)

/-- A dynamically typed Python value as it appears in tool arguments and
document metadata: a string, an integer, or None. -/
inductive PyVal where
  | str (s : String)
  | int (n : Int)
  | pynone
deriving DecidableEq, Repr

/-- Python str coercion on PyVal. -/
def pyStr : PyVal → String
  | PyVal.str s => s
  | PyVal.int n => toString n
  | PyVal.pynone => "None"

/-- Leading and trailing spaces removed, as Python int coercion accepts
surrounding whitespace. -/
def stripSpaces (cs : List Char) : List Char :=
  ((cs.dropWhile (fun c => c = ' ')).reverse.dropWhile (fun c => c = ' ')).reverse

/-- A non-empty all-digit character run read as a natural number. -/
def digitsToNat (cs : List Char) : Option Nat :=
  if cs.isEmpty then Option.none
  else if cs.all Char.isDigit then
    some (cs.foldl (fun a c => 10 * a + (c.toNat - 48)) 0)
  else Option.none

/-- Python int parsing of a string: optional surrounding whitespace, an
optional sign, then at least one digit and nothing else. -/
def pyStrToInt (s : String) : Option Int :=
  match stripSpaces s.data with
  | [] => Option.none
  | c :: rest =>
    if c = '-' then (digitsToNat rest).map (fun n => -(n : Int))
    else if c = '+' then (digitsToNat rest).map (fun n => (n : Int))
    else (digitsToNat (c :: rest)).map (fun n => (n : Int))

/-- Python int coercion on PyVal: succeeds on integers and on integer
literals in string form, fails (raising ValueError or TypeError in the
source, modelled as Option.none) otherwise. -/
def pyToInt : PyVal → Option Int
  | PyVal.str s => pyStrToInt s
  | PyVal.int n => some n
  | PyVal.pynone => Option.none

/-- Python list slicing with end bound k, where a negative k counts from
the end of the list: models l up to index k. -/
def pyTake (k : Int) (l : List α) : List α :=
  if 0 ≤ k then l.take k.toNat else l.take ((l.length : Int) + k).toNat

/-- Tool arguments: a string-keyed mapping of dynamic values. -/
abbrev ToolArgs := List (String × PyVal)

/-- Python dict .get on tool arguments: the first binding of the key. -/
def dictGet (args : ToolArgs) (k : String) : Option PyVal :=
  match args.find? (fun kv => kv.1 = k) with
  | some kv => some kv.2
  | Option.none => Option.none

/-- Document metadata: the conventional keys source, page and type of
the metadata mapping, each possibly absent. -/
structure Metadata where
  source : Option String := Option.none
  page : Option PyVal := Option.none
  mtype : Option PyVal := Option.none
deriving DecidableEq, Repr

/-- A retrieved document: page content plus metadata. -/
structure Document where
  page_content : String
  metadata : Metadata
deriving DecidableEq, Repr

/-- The externally visible projection of a Document built by the
retrieval handlers: content, source, page, type with defaults. -/
structure ProjDoc where
  content : String
  source : String
  page : PyVal
  mtype : PyVal
deriving DecidableEq, Repr

/-- One entry of the document catalog emitted by get_document_list. -/
structure CatalogEntry where
  name : String
  total_chunks : Nat
  page_count : Nat
  content_types : List String
deriving DecidableEq, Repr

/-- The value of the documents key of an envelope: projected documents
for the retrieval tools, catalog entries for get_document_list. -/
inductive DocsVal where
  | proj (ds : List ProjDoc)
  | catalog (es : List CatalogEntry)
deriving DecidableEq, Repr

/-- The result envelope returned by execute_tool: a Python dict with a
success flag and possibly-absent keys, one Option field per key. -/
structure Envelope where
  success : Bool
  error : Option String := Option.none
  message : Option String := Option.none
  documents : Option DocsVal := Option.none
  count : Option Nat := Option.none
  searched_document : Option String := Option.none
  total_documents : Option Nat := Option.none
deriving DecidableEq, Repr

/-- The RAG pipeline collaborator as consumed by the executor: the
hybrid retriever (guarded by a hasattr probe), the relevance checker,
and the ingested document collection (guarded by a hasattr probe).
Collaborator calls that raise are modelled by the error branch. -/
structure Pipeline where
  has_hybrid_retriever : Bool
  invoke : String → Except String (List Document)
  filter_documents : String → List Document → Except String (List (Document × Int))
  has_documents : Bool
  documents : List Document

/-- A tool schema: name, description and parameter spec, as declared in
TOOL_SCHEMAS. -/
structure ParamProp where
  ptype : String
  description : String
deriving DecidableEq, Repr

/-- The parameters object of a tool schema. -/
structure ParameterSpec where
  properties : List (String × ParamProp)
  required : List String
deriving DecidableEq, Repr

/-- One declared tool. -/
structure ToolSchema where
  name : String
  description : String
  parameters : ParameterSpec
deriving DecidableEq, Repr

/-- The static tool catalog TOOL_SCHEMAS of src/gemini_tools.py. -/
def TOOL_SCHEMAS : List ToolSchema := [
  { name := "retrieve_documents"
    description := "Retrieve relevant documents from the wetland conservation knowledge base. Use this tool when you need to find information to answer the question of the user. This searches across all available PDF documents."
    parameters := {
      properties := [
        ("query", { ptype := "STRING", description := "The search query to find relevant documents. Should be a clear, specific question or topic." }),
        ("top_k", { ptype := "INTEGER", description := "Number of top documents to retrieve (default: 8, max: 15)" })]
      required := ["query"] } },
  { name := "search_specific_document"
    description := "Search for information within a specific document only. Use this when the user explicitly mentions a document name (e.g., National Wetland Policy, Metro Colombo Strategy) or asks to use only a specific source."
    parameters := {
      properties := [
        ("document_name", { ptype := "STRING", description := "The name of the specific document to search within (e.g., National Wetland Policy.pdf)" }),
        ("query", { ptype := "STRING", description := "The search query within that specific document" }),
        ("top_k", { ptype := "INTEGER", description := "Number of top chunks to retrieve from this document (default: 5)" })]
      required := ["document_name", "query"] } },
  { name := "get_document_list"
    description := "Get a list of all available documents in the knowledge base with their metadata. Use this when the user asks what documents are available or wants to know the sources."
    parameters := { properties := [], required := [] } }]

/-- Whether the needle occurs as a contiguous run at the head of hay. -/
def listStartsWith : List Char → List Char → Bool
  | _, [] => true
  | [], _ :: _ => false
  | a :: as, b :: bs => a = b && listStartsWith as bs

/-- Whether the needle occurs as a contiguous run anywhere in hay:
models the Python in operator on strings. -/
def listHasSub : List Char → List Char → Bool
  | [], needle => needle.isEmpty
  | a :: t, needle => listStartsWith (a :: t) needle || listHasSub t needle

/-- Python str.lower, character by character. -/
def strLower (s : String) : String :=
  String.mk (s.data.map Char.toLower)

/-- Case-insensitive substring test: models needle.lower() in
hay.lower(). -/
def containsCI (hay needle : String) : Bool :=
  listHasSub (strLower hay).data (strLower needle).data

/-- The effective top_k limit: int coercion of the top_k argument with
a silent fallback to the default on absence or coercion failure. -/
def effTopK (args : ToolArgs) (d : Int) : Int :=
  match dictGet args "top_k" with
  | some v => (pyToInt v).getD d
  | Option.none => d

/-- The effective query of retrieve_documents: str coercion of the
query argument, falling back to the question argument, then to "". -/
def effQuery (args : ToolArgs) : String :=
  pyStr ((dictGet args "query").getD ((dictGet args "question").getD (PyVal.str "")))

/-- Projection of a Document to its envelope form, with the defaults
Unknown, ?, text for absent metadata keys. -/
def projectDoc (d : Document) : ProjDoc :=
  { content := d.page_content
    source := d.metadata.source.getD "Unknown"
    page := d.metadata.page.getD (PyVal.str "?")
    mtype := d.metadata.mtype.getD (PyVal.str "text") }

/-- Handler for retrieve_documents (ToolExecutor._retrieve_documents).
The Except layer carries collaborator exceptions to the dispatcher. -/
def retrieve_documents_h (p : Pipeline) (args : ToolArgs) : Except String Envelope :=
  let top_k := effTopK args 8
  let query := effQuery args
  if query = "" then
    Except.ok { success := false, error := some "Query is required" }
  else if p.has_hybrid_retriever then
    match p.invoke query with
    | Except.error e => Except.error e
    | Except.ok retrieved_docs =>
      if retrieved_docs.isEmpty then
        Except.ok { success := true
                    message := some "No relevant documents found"
                    documents := some (DocsVal.proj [])
                    count := some 0 }
      else
        let top_docs := pyTake top_k retrieved_docs
        match p.filter_documents query top_docs with
        | Except.error e => Except.error e
        | Except.ok filtered =>
          let filtered_docs := filtered.map Prod.fst
          let results := filtered_docs.map projectDoc
          Except.ok { success := true
                      message := some ("Retrieved " ++ toString results.length ++ " relevant documents")
                      documents := some (DocsVal.proj results)
                      count := some results.length }
  else
    Except.ok { success := false, error := some "RAG pipeline not initialized" }

/-- The scoping predicate of search_specific_document: the document
name occurs case-insensitively in the source metadata (default ""). -/
def scopedTo (document_name : String) (d : Document) : Bool :=
  containsCI (d.metadata.source.getD "") document_name

/-- The effective document_name of search_specific_document: str
coercion of the document_name argument, defaulting to "". -/
def effDocName (args : ToolArgs) : String :=
  pyStr ((dictGet args "document_name").getD (PyVal.str ""))

/-- The effective query of search_specific_document: str coercion of
the query argument, defaulting to "". -/
def effSearchQuery (args : ToolArgs) : String :=
  pyStr ((dictGet args "query").getD (PyVal.str ""))

/-- Handler for search_specific_document
(ToolExecutor._search_specific_document). -/
def search_specific_document_h (p : Pipeline) (args : ToolArgs) : Except String Envelope :=
  let document_name := effDocName args
  let query := effSearchQuery args
  let top_k := effTopK args 5
  if document_name = "" || query = "" then
    Except.ok { success := false, error := some "Both document_name and query are required" }
  else if p.has_hybrid_retriever then
    match p.invoke query with
    | Except.error e => Except.error e
    | Except.ok retrieved_docs =>
      let doc_specific := retrieved_docs.filter (scopedTo document_name)
      if doc_specific.isEmpty then
        Except.ok { success := true
                    message := some ("No content found in " ++ squo ++ document_name ++ squo ++ " for this query")
                    documents := some (DocsVal.proj [])
                    count := some 0
                    searched_document := some document_name }
      else
        let top_docs := pyTake (top_k * 2) doc_specific
        match p.filter_documents query top_docs with
        | Except.error e => Except.error e
        | Except.ok filtered =>
          let filtered_docs := (pyTake top_k filtered).map Prod.fst
          let results := filtered_docs.map projectDoc
          Except.ok { success := true
                      message := some ("Retrieved " ++ toString results.length ++ " chunks from " ++ squo ++ document_name ++ squo)
                      documents := some (DocsVal.proj results)
                      count := some results.length
                      searched_document := some document_name }
  else
    Except.ok { success := false, error := some "RAG pipeline not initialized" }

/-- Per-source accumulator of get_document_list: name, distinct page
strings, distinct type strings, chunk count. -/
structure GroupInfo where
  name : String
  pages : List String
  types : List String
  chunk_count : Nat
deriving DecidableEq, Repr

/-- Python set add on a list kept duplicate-free in insertion order. -/
def addToSet (s : List String) (x : String) : List String :=
  if x ∈ s then s else s ++ [x]

/-- The effective source key a document is grouped under. -/
def effSource (d : Document) : String :=
  d.metadata.source.getD "Unknown"

/-- The stringified page value of a document (default "?"). -/
def effPageStr (d : Document) : String :=
  pyStr (d.metadata.page.getD (PyVal.str "?"))

/-- The stringified type value of a document (default "text"). -/
def effTypeStr (d : Document) : String :=
  pyStr (d.metadata.mtype.getD (PyVal.str "text"))

/-- The per-document update of a group of get_document_list: add the
page and type strings to the distinct sets and bump the chunk count. -/
def bumpGroup (d : Document) (g : GroupInfo) : GroupInfo :=
  { g with pages := addToSet g.pages (effPageStr d)
           types := addToSet g.types (effTypeStr d)
           chunk_count := g.chunk_count + 1 }

/-- One step of the grouping loop of get_document_list: create the
group on first sight of a source, then add page and type and bump the
chunk count. -/
def updateGroup (acc : List (String × GroupInfo)) (d : Document) : List (String × GroupInfo) :=
  let source := effSource d
  if source ∈ acc.map Prod.fst then
    acc.map (fun kv => if kv.1 = source then (kv.1, bumpGroup d kv.2) else kv)
  else
    acc ++ [(source, bumpGroup d { name := source, pages := [], types := [], chunk_count := 0 })]

/-- The grouped per-source information doc_info, in first-seen order. -/
def docInfo (docs : List Document) : List (String × GroupInfo) :=
  docs.foldl updateGroup []

/-- A GroupInfo rendered as a catalog entry. -/
def entryOfGroup (g : GroupInfo) : CatalogEntry :=
  { name := g.name
    total_chunks := g.chunk_count
    page_count := g.pages.length
    content_types := g.types }

/-- Handler for get_document_list (ToolExecutor._get_document_list). -/
def get_document_list_h (p : Pipeline) (_args : ToolArgs) : Except String Envelope :=
  if !p.has_documents || p.documents.isEmpty then
    Except.ok { success := false, error := some "No documents loaded in the knowledge base" }
  else
    let documents := (docInfo p.documents).map (fun kv => entryOfGroup kv.2)
    Except.ok { success := true
                message := some ("Found " ++ toString documents.length ++ " documents in knowledge base")
                documents := some (DocsVal.catalog documents)
                total_documents := some documents.length }

/-- The body of the try block of execute_tool: route the tool name to
its handler, or build the unknown-tool envelope. -/
def run_tool (p : Pipeline) (tool_name : String) (tool_args : ToolArgs) : Except String Envelope :=
  if tool_name = "retrieve_documents" then retrieve_documents_h p tool_args
  else if tool_name = "search_specific_document" then search_specific_document_h p tool_args
  else if tool_name = "get_document_list" then get_document_list_h p tool_args
  else Except.ok { success := false, error := some ("Unknown tool: " ++ tool_name) }

/-- ToolExecutor.execute_tool: run the tool and catch any exception,
converting it to a failure envelope carrying the exception message. -/
def execute_tool (p : Pipeline) (tool_name : String) (tool_args : ToolArgs) : Envelope :=
  match run_tool p tool_name tool_args with
  | Except.ok e => e
  | Except.error msg => { success := false, error := some msg }

/-- The documents key of an envelope as the list of projected documents
the formatter iterates over; absent key defaults to the empty list (the
catalog variant never reaches this branch from execute_tool). -/
def docsOfEnvelope (e : Envelope) : List ProjDoc :=
  match e.documents with
  | some (DocsVal.proj ds) => ds
  | some (DocsVal.catalog _) => []
  | Option.none => []

/-- The documents key of an envelope as catalog entries; absent key
defaults to the empty list. -/
def entriesOfEnvelope (e : Envelope) : List CatalogEntry :=
  match e.documents with
  | some (DocsVal.catalog es) => es
  | some (DocsVal.proj _) => []
  | Option.none => []

/-- One per-document block of the formatter output. -/
def formatDocBlock (i : Nat) (d : ProjDoc) : String :=
  "--- Document " ++ toString i ++ " ---\n" ++
  "Source: " ++ d.source ++ ", Page: " ++ pyStr d.page ++ ", Type: " ++ pyStr d.mtype ++ "\n" ++
  "Content: " ++ d.content ++ "\n\n"

/-- The enumerated per-document blocks, counting from i. -/
def docBlocks : Nat → List ProjDoc → String
  | _, [] => ""
  | i, d :: ds => formatDocBlock i d ++ docBlocks (i + 1) ds

/-- One line per catalog entry of the get_document_list output. -/
def catalogLines : List CatalogEntry → String
  | [] => ""
  | e :: es =>
    "- " ++ e.name ++ ": " ++ toString e.total_chunks ++ " chunks, " ++
    toString e.page_count ++ " pages\n" ++ catalogLines es

/-- JSON rendering of a PyVal for the generic fallback dump. -/
def jsonOfPyVal : PyVal → String
  | PyVal.str s => "\"" ++ s ++ "\""
  | PyVal.int n => toString n
  | PyVal.pynone => "null"

/-- JSON rendering of a projected document. -/
def jsonOfProjDoc (d : ProjDoc) : String :=
  "\x7b\"content\": \"" ++ d.content ++ "\", \"source\": \"" ++ d.source ++
  "\", \"page\": " ++ jsonOfPyVal d.page ++ ", \"type\": " ++ jsonOfPyVal d.mtype ++ "\x7d"

/-- JSON rendering of a catalog entry. -/
def jsonOfCatalogEntry (e : CatalogEntry) : String :=
  "\x7b\"name\": \"" ++ e.name ++ "\", \"total_chunks\": " ++ toString e.total_chunks ++
  ", \"page_count\": " ++ toString e.page_count ++ ", \"content_types\": [" ++
  String.intercalate ", " (e.content_types.map (fun s => "\"" ++ s ++ "\"")) ++ "]\x7d"

/-- JSON rendering of the documents key. -/
def jsonOfDocsVal : DocsVal → String
  | DocsVal.proj ds => "[" ++ String.intercalate ", " (ds.map jsonOfProjDoc) ++ "]"
  | DocsVal.catalog es => "[" ++ String.intercalate ", " (es.map jsonOfCatalogEntry) ++ "]"

/-- Generic dump of an envelope for unrecognized tool names, modelling
json.dumps on the result dict (whitespace and key order abstracted: the
present keys are rendered in declaration order on one line). -/
def jsonDumpEnvelope (e : Envelope) : String :=
  let fields : List (Option (String × String)) := [
    some ("success", if e.success then "true" else "false"),
    e.error.map (fun s => ("error", "\"" ++ s ++ "\"")),
    e.message.map (fun s => ("message", "\"" ++ s ++ "\"")),
    e.documents.map (fun d => ("documents", jsonOfDocsVal d)),
    e.count.map (fun n => ("count", toString n)),
    e.searched_document.map (fun s => ("searched_document", "\"" ++ s ++ "\"")),
    e.total_documents.map (fun n => ("total_documents", toString n))]
  "\x7b" ++ String.intercalate ", "
    ((fields.filterMap id).map (fun kv => "\"" ++ kv.1 ++ "\": " ++ kv.2)) ++ "\x7d"

/-- format_tool_result_for_prompt of src/gemini_tools.py: serialize a
result envelope into the text block fed back to the LLM. -/
def format_tool_result_for_prompt (tool_name : String) (result : Envelope) : String :=
  if !result.success then
    "[Tool Error - " ++ tool_name ++ "]: " ++ result.error.getD "Unknown error"
  else if tool_name = "retrieve_documents" || tool_name = "search_specific_document" then
    let docs := docsOfEnvelope result
    if docs.isEmpty then
      "[" ++ tool_name ++ "]: No relevant documents found."
    else
      "[" ++ tool_name ++ "]: Retrieved " ++ toString docs.length ++ " documents:\n\n" ++
      docBlocks 1 docs
  else if tool_name = "get_document_list" then
    "[" ++ tool_name ++ "]: Available documents:\n\n" ++ catalogLines (entriesOfEnvelope result)
  else
    "[" ++ tool_name ++ "]: " ++ jsonDumpEnvelope result

/-- Duplicate-free list of the elements of l in first-seen order; the
spec-side notion of the distinct values of a list. -/
def firstSeen (l : List String) : List String :=
  l.foldl addToSet []

/-- The envelope shape invariant of the dispatcher: a success envelope
carries no error key and carries a documents key; a failure envelope
carries an error key and no documents key. -/
def goodEnvelope (e : Envelope) : Prop :=
  (e.success = true → e.error = Option.none ∧ e.documents ≠ Option.none) ∧
  (e.success = false → e.error ≠ Option.none ∧ e.documents = Option.none)

instance (e : Envelope) : Decidable (goodEnvelope e) := by
  unfold goodEnvelope; infer_instance

/-- Concrete fixture: first chunk of A.pdf. -/
def docA : Document :=
  { page_content := "alpha"
    metadata := { source := some "A.pdf", page := some (PyVal.int 1), mtype := some (PyVal.str "text") } }

/-- Concrete fixture: second chunk of A.pdf. -/
def docB : Document :=
  { page_content := "beta"
    metadata := { source := some "A.pdf", page := some (PyVal.int 2) } }

/-- Concrete fixture: one chunk of B.pdf. -/
def docC : Document :=
  { page_content := "gamma"
    metadata := { source := some "B.pdf", page := some (PyVal.int 1) } }

/-- Concrete pipeline fixture whose retriever always returns the three
sample chunks and whose relevance checker keeps everything. -/
def samplePipeline : Pipeline :=
  { has_hybrid_retriever := true
    invoke := fun _ => Except.ok [docA, docB, docC]
    filter_documents := fun _ ds => Except.ok (ds.map (fun d => (d, 1)))
    has_documents := true
    documents := [docA, docB, docC] }

/-- Concrete pipeline fixture whose retriever raises. -/
def throwPipeline : Pipeline :=
  { has_hybrid_retriever := true
    invoke := fun _ => Except.error "retriever exploded"
    filter_documents := fun _ ds => Except.ok (ds.map (fun d => (d, 1)))
    has_documents := true
    documents := [docA] }

/-- Concrete pipeline fixture whose relevance checker raises. -/
def filterThrowPipeline : Pipeline :=
  { has_hybrid_retriever := true
    invoke := fun _ => Except.ok [docA, docB, docC]
    filter_documents := fun _ _ => Except.error "relevance filter exploded"
    has_documents := true
    documents := [docA, docB, docC] }

/-- Concrete pipeline fixture whose retriever returns nothing and whose
document collection is empty. -/
def emptyPipeline : Pipeline :=
  { has_hybrid_retriever := true
    invoke := fun _ => Except.ok []
    filter_documents := fun _ ds => Except.ok (ds.map (fun d => (d, 1)))
    has_documents := true
    documents := [] }

/-- Every envelope the retrieve_documents handler returns normally
satisfies the shape invariant, and its error key, when present, is one
of the two fixed messages of that handler. -/
theorem retrieve_documents_h_shape (p : Pipeline) (args : ToolArgs) :
    ∀ e, retrieve_documents_h p args = Except.ok e →
      goodEnvelope e ∧
      (e.error = Option.none ∨ e.error = some "Query is required" ∨
        e.error = some "RAG pipeline not initialized") := by
  simp only [retrieve_documents_h]
  repeat' split
  all_goals intro e h
  all_goals
    first
      | (injection h with h; subst h; constructor <;> simp [goodEnvelope])
      | injection h

/-- Every envelope the search_specific_document handler returns
normally satisfies the shape invariant, and its error key, when
present, is one of the two fixed messages of that handler. -/
theorem search_specific_document_h_shape (p : Pipeline) (args : ToolArgs) :
    ∀ e, search_specific_document_h p args = Except.ok e →
      goodEnvelope e ∧
      (e.error = Option.none ∨ e.error = some "Both document_name and query are required" ∨
        e.error = some "RAG pipeline not initialized") := by
  simp only [search_specific_document_h]
  repeat' split
  all_goals intro e h
  all_goals
    first
      | (injection h with h; subst h; constructor <;> simp [goodEnvelope])
      | injection h

/-- Every envelope the get_document_list handler returns satisfies the
shape invariant, and its error key, when present, is the fixed
no-documents message. -/
theorem get_document_list_h_shape (p : Pipeline) (args : ToolArgs) :
    ∀ e, get_document_list_h p args = Except.ok e →
      goodEnvelope e ∧
      (e.error = Option.none ∨ e.error = some "No documents loaded in the knowledge base") := by
  simp only [get_document_list_h]
  repeat' split
  all_goals intro e h
  all_goals injection h with h
  all_goals subst h
  all_goals constructor <;> simp [goodEnvelope]

/-- Every envelope the dispatch body returns normally satisfies the
shape invariant. -/
theorem run_tool_shape (p : Pipeline) (tool_name : String) (args : ToolArgs) :
    ∀ e, run_tool p tool_name args = Except.ok e → goodEnvelope e := by
  unfold run_tool
  split
  · exact fun e h => (retrieve_documents_h_shape p args e h).1
  · split
    · exact fun e h => (search_specific_document_h_shape p args e h).1
    · split
      · exact fun e h => (get_document_list_h_shape p args e h).1
      · intro e h
        injection h with h
        subst h
        exact ⟨by simp, by simp⟩

/-- C1: for every tool name (known or unknown) and every argument
mapping, the envelope returned by execute_tool has exactly one of the
two shapes: success with no error key and a documents key present, or
failure with an error key present and no documents key. -/
theorem C1_envelope_shape (p : Pipeline) (tool_name : String) (args : ToolArgs) :
    goodEnvelope (execute_tool p tool_name args) := by
  cases hr : run_tool p tool_name args with
  | ok e =>
    have he := run_tool_shape p tool_name args e hr
    simpa [execute_tool, hr] using he
  | error m => simp [execute_tool, hr, goodEnvelope]

/-- Closed instantiation of C1_envelope_shape at concrete inputs. -/
theorem C1_envelope_shape_witness :
    goodEnvelope (execute_tool samplePipeline "retrieve_documents" [("query", PyVal.str "marsh")]) ∧
    goodEnvelope (execute_tool samplePipeline "no_such_tool" []) :=
  ⟨C1_envelope_shape samplePipeline "retrieve_documents" [("query", PyVal.str "marsh")],
   C1_envelope_shape samplePipeline "no_such_tool" []⟩

/-- C2: an exception raised during handler execution (modelled as the
error branch of the dispatch body) is caught by execute_tool and
converted into a failure envelope carrying the exception message; by
totality of execute_tool no exception propagates out of it. -/
theorem C2_exception_caught (p : Pipeline) (tool_name : String) (args : ToolArgs)
    (msg : String) (h : run_tool p tool_name args = Except.error msg) :
    execute_tool p tool_name args = { success := false, error := some msg } := by
  simp [execute_tool, h]

/-- Closed instantiation of C2_exception_caught: a relevance-filter
exception surfaces as a failure envelope with its message. -/
theorem C2_exception_caught_witness :
    run_tool filterThrowPipeline "retrieve_documents" [("query", PyVal.str "marsh")] =
      Except.error "relevance filter exploded" ∧
    execute_tool filterThrowPipeline "retrieve_documents" [("query", PyVal.str "marsh")] =
      { success := false, error := some "relevance filter exploded" } :=
  ⟨by rfl,
   C2_exception_caught filterThrowPipeline "retrieve_documents" [("query", PyVal.str "marsh")]
     "relevance filter exploded" (by rfl)⟩

/-- C7: retrieve_documents argument leniency. When the query key is
absent the question key supplies the query; an empty coerced query
yields the Query-is-required failure envelope for every pipeline (so no
collaborator is consulted); a top_k value that int coercion rejects
silently leaves the effective limit at the default 8. -/
theorem C7_retrieve_lenient_args (p : Pipeline) (args : ToolArgs) (v : PyVal) :
    (dictGet args "query" = Option.none →
      effQuery args = pyStr ((dictGet args "question").getD (PyVal.str ""))) ∧
    (effQuery args = "" →
      execute_tool p "retrieve_documents" args =
        { success := false, error := some "Query is required" }) ∧
    (dictGet args "top_k" = some v → pyToInt v = Option.none → effTopK args 8 = 8) := by
  refine ⟨?_, ?_, ?_⟩
  · intro h
    simp [effQuery, h]
  · intro h
    simp [execute_tool, run_tool, retrieve_documents_h, h]
  · intro h hv
    simp [effTopK, h, hv]

/-- Closed instantiation of C7_retrieve_lenient_args: question supplies
the query, a non-numeric top_k falls back to 8, and an empty query is
rejected. -/
theorem C7_retrieve_lenient_args_witness :
    (effQuery [("question", PyVal.str "wetland birds"), ("top_k", PyVal.str "abc")] =
      pyStr ((dictGet [("question", PyVal.str "wetland birds"), ("top_k", PyVal.str "abc")]
        "question").getD (PyVal.str ""))) ∧
    (effTopK [("question", PyVal.str "wetland birds"), ("top_k", PyVal.str "abc")] 8 = 8) ∧
    (execute_tool samplePipeline "retrieve_documents" [("query", PyVal.str "")] =
      { success := false, error := some "Query is required" }) :=
  ⟨(C7_retrieve_lenient_args samplePipeline
      [("question", PyVal.str "wetland birds"), ("top_k", PyVal.str "abc")]
      (PyVal.str "abc")).1 (by decide),
   (C7_retrieve_lenient_args samplePipeline
      [("question", PyVal.str "wetland birds"), ("top_k", PyVal.str "abc")]
      (PyVal.str "abc")).2.2 (by decide) (by decide),
   (C7_retrieve_lenient_args samplePipeline [("query", PyVal.str "")]
      (PyVal.str "abc")).2.1 (by decide)⟩

/-- C10: search_specific_document returns its validation failure as
soon as at least one of document_name and query is empty after string
coercion, for every pipeline (so no collaborator is consulted). -/
theorem C10_search_requires_both (p : Pipeline) (args : ToolArgs)
    (h : effDocName args = "" ∨ effSearchQuery args = "") :
    execute_tool p "search_specific_document" args =
      { success := false, error := some "Both document_name and query are required" } := by
  rcases h with h | h <;>
    simp [execute_tool, run_tool, search_specific_document_h, h]

/-- Closed instantiation of C10_search_requires_both: a non-empty
document_name with a missing query is still rejected, even against a
pipeline whose retriever would raise. -/
theorem C10_search_requires_both_witness :
    execute_tool throwPipeline "search_specific_document" [("document_name", PyVal.str "A.pdf")] =
      { success := false, error := some "Both document_name and query are required" } :=
  C10_search_requires_both throwPipeline [("document_name", PyVal.str "A.pdf")]
    (Or.inr (by decide))

/-- C8: a tool name outside the catalog produces the Unknown-tool
failure envelope; the catalog names are exactly the dispatch set of
execute_tool; and the dispatch body never produces the Unknown-tool
envelope for a catalogued name. -/
theorem C8_unknown_tool (p : Pipeline) (tool_name : String) (args : ToolArgs) :
    (tool_name ∉ TOOL_SCHEMAS.map ToolSchema.name →
      execute_tool p tool_name args =
        { success := false, error := some ("Unknown tool: " ++ tool_name) }) ∧
    (TOOL_SCHEMAS.map ToolSchema.name =
      ["retrieve_documents", "search_specific_document", "get_document_list"]) ∧
    (tool_name ∈ TOOL_SCHEMAS.map ToolSchema.name →
      run_tool p tool_name args ≠
        Except.ok { success := false, error := some ("Unknown tool: " ++ tool_name) }) := by
  have hcat : TOOL_SCHEMAS.map ToolSchema.name =
      ["retrieve_documents", "search_specific_document", "get_document_list"] := rfl
  refine ⟨?_, hcat, ?_⟩
  · intro hn
    rw [hcat] at hn
    simp only [List.mem_cons, List.not_mem_nil, or_false] at hn
    push_neg at hn
    obtain ⟨h1, h2, h3⟩ := hn
    simp [execute_tool, run_tool, h1, h2, h3]
  · intro hmem heq
    rw [hcat] at hmem
    simp only [List.mem_cons, List.not_mem_nil, or_false] at hmem
    rcases hmem with rfl | rfl | rfl
    · have hrun : retrieve_documents_h p args =
          Except.ok { success := false, error := some ("Unknown tool: " ++ "retrieve_documents") } := by
        simpa [run_tool] using heq
      rcases (retrieve_documents_h_shape p args _ hrun).2 with h2 | h2 | h2 <;>
        exact absurd h2 (by decide)
    · have hrun : search_specific_document_h p args =
          Except.ok { success := false, error := some ("Unknown tool: " ++ "search_specific_document") } := by
        simpa [run_tool] using heq
      rcases (search_specific_document_h_shape p args _ hrun).2 with h2 | h2 | h2 <;>
        exact absurd h2 (by decide)
    · have hrun : get_document_list_h p args =
          Except.ok { success := false, error := some ("Unknown tool: " ++ "get_document_list") } := by
        simpa [run_tool] using heq
      rcases (get_document_list_h_shape p args _ hrun).2 with h2 | h2 <;>
        exact absurd h2 (by decide)

/-- Closed instantiation of C8_unknown_tool at an uncatalogued name. -/
theorem C8_unknown_tool_witness :
    execute_tool samplePipeline "summarize_document" [] =
      { success := false, error := some ("Unknown tool: " ++ "summarize_document") } :=
  (C8_unknown_tool samplePipeline "summarize_document" []).1 (by decide)

/-- A list is a starting run of itself followed by anything. -/
theorem listStartsWith_append (xs ys : List Char) :
    listStartsWith (xs ++ ys) xs = true := by
  induction xs with
  | nil => simp [listStartsWith]
  | cons a as ih => simp [listStartsWith, ih]

/-- A starting run is in particular a contiguous run somewhere. -/
theorem listHasSub_of_startsWith (l n : List Char) (h : listStartsWith l n = true) :
    listHasSub l n = true := by
  cases l with
  | nil =>
    cases n with
    | nil => rfl
    | cons b bs => simp [listStartsWith] at h
  | cons a t => simp [listHasSub, h]

/-- The suffix of a concatenation is a contiguous run of it. -/
theorem listHasSub_append_self (xs ys : List Char) :
    listHasSub (xs ++ ys) ys = true := by
  induction xs with
  | nil =>
    apply listHasSub_of_startsWith
    have h := listStartsWith_append ys []
    simpa using h
  | cons a as ih => simp [listHasSub, ih]

/-- C9: for every tool name, a failure envelope is rendered as the
single Tool-Error line (hence the output starts with the Tool-Error
marker), and a success envelope of a retrieval tool whose documents
list is empty is rendered with the no-relevant-documents sentence. -/
theorem C9_formatter (tool_name : String) (e : Envelope) :
    (e.success = false →
      format_tool_result_for_prompt tool_name e =
        "[Tool Error - " ++ tool_name ++ "]: " ++ e.error.getD "Unknown error" ∧
      listStartsWith (format_tool_result_for_prompt tool_name e).data
        "[Tool Error - ".data = true) ∧
    ((tool_name = "retrieve_documents" ∨ tool_name = "search_specific_document") →
      e.success = true → e.documents = some (DocsVal.proj []) →
      listHasSub (format_tool_result_for_prompt tool_name e).data
        "No relevant documents found.".data = true) := by
  constructor
  · intro h
    have heq : format_tool_result_for_prompt tool_name e =
        "[Tool Error - " ++ tool_name ++ "]: " ++ e.error.getD "Unknown error" := by
      simp [format_tool_result_for_prompt, h]
    refine ⟨heq, ?_⟩
    rw [heq]
    have : ("[Tool Error - " ++ tool_name ++ "]: " ++ e.error.getD "Unknown error").data =
        "[Tool Error - ".data ++ (tool_name.data ++ ("]: " ++ e.error.getD "Unknown error").data) := by
      simp [String.data_append]
    rw [this]
    exact listStartsWith_append _ _
  · intro hn hs hd
    have heq : format_tool_result_for_prompt tool_name e =
        "[" ++ tool_name ++ "]: No relevant documents found." := by
      rcases hn with rfl | rfl <;>
        simp [format_tool_result_for_prompt, hs, docsOfEnvelope, hd]
    rw [heq]
    have hsplit : ("[" ++ tool_name ++ "]: No relevant documents found.").data =
        ("[".data ++ tool_name.data ++ "]: ".data) ++ "No relevant documents found.".data := by
      simp [String.data_append]
    rw [hsplit]
    exact listHasSub_append_self _ _

/-- Closed instantiation of C9_formatter: a failure envelope renders as
the Tool-Error line, and an empty success envelope of retrieve_documents
contains the no-relevant-documents sentence. -/
theorem C9_formatter_witness :
    (format_tool_result_for_prompt "get_document_list" { success := false, error := some "boom" } =
      "[Tool Error - " ++ "get_document_list" ++ "]: " ++ (some "boom").getD "Unknown error" ∧
      listStartsWith (format_tool_result_for_prompt "get_document_list"
        { success := false, error := some "boom" }).data "[Tool Error - ".data = true) ∧
    listHasSub (format_tool_result_for_prompt "retrieve_documents"
      { success := true, message := some "No relevant documents found",
        documents := some (DocsVal.proj []), count := some 0 }).data
      "No relevant documents found.".data = true :=
  ⟨(C9_formatter "get_document_list" { success := false, error := some "boom" }).1 rfl,
   (C9_formatter "retrieve_documents"
      { success := true, message := some "No relevant documents found",
        documents := some (DocsVal.proj []), count := some 0 }).2 (Or.inl rfl) rfl rfl⟩

/-- Slicing with a nonnegative end bound is List.take. -/
theorem pyTake_nonneg {α : Type} (k : Int) (l : List α) (h : 0 ≤ k) :
    pyTake k l = l.take k.toNat := by
  simp [pyTake, h]

/-- C5: empty-but-valid retrieval results are reported as success, not
as errors. An empty retrieval gives the success envelope with zero
count for retrieve_documents; an empty scoped set gives the success
envelope with zero count and the searched_document tag for
search_specific_document. -/
theorem C5_empty_results_success (p : Pipeline) (args : ToolArgs) :
    (effQuery args ≠ "" → p.has_hybrid_retriever = true →
      p.invoke (effQuery args) = Except.ok [] →
      execute_tool p "retrieve_documents" args =
        { success := true, message := some "No relevant documents found",
          documents := some (DocsVal.proj []), count := some 0 }) ∧
    (∀ ds, effDocName args ≠ "" → effSearchQuery args ≠ "" →
      p.has_hybrid_retriever = true →
      p.invoke (effSearchQuery args) = Except.ok ds →
      ds.filter (scopedTo (effDocName args)) = [] →
      execute_tool p "search_specific_document" args =
        { success := true,
          message := some ("No content found in " ++ squo ++ effDocName args ++ squo ++
            " for this query"),
          documents := some (DocsVal.proj []), count := some 0,
          searched_document := some (effDocName args) }) := by
  constructor
  · intro hq hr hi
    simp [execute_tool, run_tool, retrieve_documents_h, hq, hr, hi]
  · intro ds hdn hq hr hi hfil
    simp [execute_tool, run_tool, search_specific_document_h, hdn, hq, hr, hi, hfil]

/-- Closed instantiation of C5_empty_results_success: an empty
retrieval, and a document name matching no source. -/
theorem C5_empty_results_success_witness :
    (execute_tool emptyPipeline "retrieve_documents" [("query", PyVal.str "marsh")] =
      { success := true, message := some "No relevant documents found",
        documents := some (DocsVal.proj []), count := some 0 }) ∧
    (execute_tool samplePipeline "search_specific_document"
        [("document_name", PyVal.str "Z.pdf"), ("query", PyVal.str "marsh")] =
      { success := true,
        message := some ("No content found in " ++ squo ++ "Z.pdf" ++ squo ++ " for this query"),
        documents := some (DocsVal.proj []), count := some 0,
        searched_document := some "Z.pdf" }) :=
  ⟨(C5_empty_results_success emptyPipeline [("query", PyVal.str "marsh")]).1
      (by decide) rfl rfl,
   (C5_empty_results_success samplePipeline
      [("document_name", PyVal.str "Z.pdf"), ("query", PyVal.str "marsh")]).2
      [docA, docB, docC] (by decide) (by decide) rfl rfl (by decide)⟩

/-- C4: the main path of retrieve_documents truncates the retrieval to
the first top_k documents, then filters, then projects with the
documented defaults, and reports the count and message over the
filtered list. -/
theorem C4_retrieve_truncate_then_filter (p : Pipeline) (args : ToolArgs)
    (docs : List Document) (fl : List (Document × Int))
    (hq : effQuery args ≠ "") (hr : p.has_hybrid_retriever = true)
    (hk : 0 ≤ effTopK args 8)
    (hi : p.invoke (effQuery args) = Except.ok docs) (hne : docs ≠ [])
    (hf : p.filter_documents (effQuery args) (docs.take (effTopK args 8).toNat) =
      Except.ok fl) :
    execute_tool p "retrieve_documents" args =
      { success := true
        message := some ("Retrieved " ++ toString fl.length ++ " relevant documents")
        documents := some (DocsVal.proj (fl.map (fun ds => projectDoc ds.1)))
        count := some fl.length } := by
  have hpt : pyTake (effTopK args 8) docs = docs.take (effTopK args 8).toNat :=
    pyTake_nonneg _ _ hk
  have hne' : docs.isEmpty = false := by
    cases docs with
    | nil => exact absurd rfl hne
    | cons d ds => rfl
  simp [execute_tool, run_tool, retrieve_documents_h, hq, hr, hi, hne', hpt, hf,
    Function.comp]

/-- Closed instantiation of C4_retrieve_truncate_then_filter on the
three-chunk pipeline. -/
theorem C4_retrieve_truncate_then_filter_witness :
    execute_tool samplePipeline "retrieve_documents" [("query", PyVal.str "marsh")] =
      { success := true
        message := some ("Retrieved " ++ toString (3 : Nat) ++ " relevant documents")
        documents := some (DocsVal.proj
          [projectDoc docA, projectDoc docB, projectDoc docC])
        count := some 3 } :=
  C4_retrieve_truncate_then_filter samplePipeline [("query", PyVal.str "marsh")]
    [docA, docB, docC] [(docA, 1), (docB, 1), (docC, 1)]
    (by decide) rfl (by decide) rfl (by decide) rfl

/-- The scoping predicate with a non-empty document name forces the
projected source (default Unknown) to contain the name
case-insensitively. -/
theorem scopedTo_source (name : String) (d : Document) (hn : name ≠ "")
    (h : scopedTo name d = true) :
    containsCI (d.metadata.source.getD "Unknown") name = true := by
  cases hsrc : d.metadata.source with
  | some s => simpa [scopedTo, hsrc] using h
  | none =>
    exfalso
    rw [scopedTo, hsrc] at h
    cases hnd : name.data with
    | nil =>
      apply hn
      cases name with
      | mk l => simp at hnd; rw [hnd]
    | cons c cs =>
      simp [containsCI, strLower, listHasSub, hnd] at h

/-- C6 helper is below; C3: the main path of search_specific_document
scopes the retrieval to sources containing the document name
case-insensitively, widens to the first 2 * top_k scoped documents,
filters, then truncates the filtered list to top_k and projects it;
and whenever the relevance filter returns a subsequence of its input,
every returned source contains the document name case-insensitively. -/
theorem C3_search_filter_then_truncate (p : Pipeline) (args : ToolArgs)
    (docs : List Document) (fl : List (Document × Int))
    (hdn : effDocName args ≠ "") (hq : effSearchQuery args ≠ "")
    (hr : p.has_hybrid_retriever = true) (hk : 0 ≤ effTopK args 5)
    (hi : p.invoke (effSearchQuery args) = Except.ok docs)
    (hsne : docs.filter (scopedTo (effDocName args)) ≠ [])
    (hf : p.filter_documents (effSearchQuery args)
        ((docs.filter (scopedTo (effDocName args))).take (effTopK args 5 * 2).toNat) =
      Except.ok fl) :
    (execute_tool p "search_specific_document" args =
      { success := true
        message := some ("Retrieved " ++ toString (fl.take (effTopK args 5).toNat).length ++
          " chunks from " ++ squo ++ effDocName args ++ squo)
        documents := some (DocsVal.proj
          ((fl.take (effTopK args 5).toNat).map (fun ds => projectDoc ds.1)))
        count := some (fl.take (effTopK args 5).toNat).length
        searched_document := some (effDocName args) }) ∧
    (List.Sublist (fl.map Prod.fst)
        ((docs.filter (scopedTo (effDocName args))).take (effTopK args 5 * 2).toNat) →
      ∀ pd ∈ (fl.take (effTopK args 5).toNat).map (fun ds => projectDoc ds.1),
        containsCI pd.source (effDocName args) = true) := by
  constructor
  · have hk2 : 0 ≤ effTopK args 5 * 2 := by omega
    have hpt2 : pyTake (effTopK args 5 * 2) (docs.filter (scopedTo (effDocName args))) =
        (docs.filter (scopedTo (effDocName args))).take (effTopK args 5 * 2).toNat :=
      pyTake_nonneg _ _ hk2
    have hpt : pyTake (effTopK args 5) fl = fl.take (effTopK args 5).toNat :=
      pyTake_nonneg _ _ hk
    have hne' : (docs.filter (scopedTo (effDocName args))).isEmpty = false := by
      cases hc : docs.filter (scopedTo (effDocName args)) with
      | nil => exact absurd hc hsne
      | cons d ds => rfl
    simp [execute_tool, run_tool, search_specific_document_h, hdn, hq, hr, hi, hne',
      hpt2, hpt, hf, Function.comp_def]
  · intro hsub pd hpd
    rw [List.mem_map] at hpd
    obtain ⟨ds, hds, rfl⟩ := hpd
    have h1 : ds ∈ fl := List.take_subset _ _ hds
    have h2 : ds.1 ∈ fl.map Prod.fst := List.mem_map_of_mem _ h1
    have h3 := hsub.subset h2
    have h4 : ds.1 ∈ docs.filter (scopedTo (effDocName args)) :=
      List.take_subset _ _ h3
    have h5 : scopedTo (effDocName args) ds.1 = true := (List.mem_filter.mp h4).2
    simpa [projectDoc] using scopedTo_source (effDocName args) ds.1 hdn h5

/-- Closed instantiation of C3_search_filter_then_truncate: a
lower-case document name scopes to the two A.pdf chunks and every
returned source contains it case-insensitively. -/
theorem C3_search_filter_then_truncate_witness :
    (execute_tool samplePipeline "search_specific_document"
        [("document_name", PyVal.str "a.pdf"), ("query", PyVal.str "marsh")] =
      { success := true
        message := some ("Retrieved " ++ toString (2 : Nat) ++
          " chunks from " ++ squo ++ "a.pdf" ++ squo)
        documents := some (DocsVal.proj [projectDoc docA, projectDoc docB])
        count := some 2
        searched_document := some "a.pdf" }) ∧
    (∀ pd ∈ [projectDoc docA, projectDoc docB],
      containsCI pd.source "a.pdf" = true) := by
  have h := C3_search_filter_then_truncate samplePipeline
    [("document_name", PyVal.str "a.pdf"), ("query", PyVal.str "marsh")]
    [docA, docB, docC] [(docA, 1), (docB, 1)]
    (by decide) (by decide) rfl (by decide) rfl (by decide) rfl
  refine ⟨h.1, ?_⟩
  have h2 := h.2 (by show List.Sublist [docA, docB] [docA, docB]; exact List.Sublist.refl _)
  exact h2

/-- Membership in a set-insertion: the old elements plus the new one. -/
theorem mem_addToSet (s : List String) (x y : String) :
    y ∈ addToSet s x ↔ y ∈ s ∨ y = x := by
  by_cases h : x ∈ s
  · simp only [addToSet, if_pos h]
    constructor
    · exact Or.inl
    · rintro (hy | rfl)
      · exact hy
      · exact h
  · simp [addToSet, h]

/-- Set-insertion keeps the list duplicate-free. -/
theorem addToSet_nodup (s : List String) (x : String) (h : s.Nodup) :
    (addToSet s x).Nodup := by
  by_cases hx : x ∈ s
  · simpa [addToSet, hx] using h
  · simp only [addToSet, if_neg hx]
    rw [List.nodup_append]
    refine ⟨h, List.nodup_singleton x, ?_⟩
    intro a ha hax
    rw [List.mem_singleton] at hax
    exact hx (hax ▸ ha)

/-- Folding set-insertions over a duplicate-free accumulator keeps it
duplicate-free. -/
theorem foldl_addToSet_nodup (l : List String) (acc : List String) (h : acc.Nodup) :
    (l.foldl addToSet acc).Nodup := by
  induction l generalizing acc with
  | nil => exact h
  | cons x t ih => exact ih _ (addToSet_nodup _ _ h)

/-- Membership after folding set-insertions. -/
theorem mem_foldl_addToSet (l : List String) (acc : List String) (y : String) :
    y ∈ l.foldl addToSet acc ↔ y ∈ acc ∨ y ∈ l := by
  induction l generalizing acc with
  | nil => simp
  | cons x t ih =>
    rw [List.foldl_cons, ih, mem_addToSet, List.mem_cons]
    tauto

/-- firstSeen has exactly the members of its input. -/
theorem mem_firstSeen (l : List String) (y : String) : y ∈ firstSeen l ↔ y ∈ l := by
  simp [firstSeen, mem_foldl_addToSet]

/-- firstSeen is duplicate-free. -/
theorem firstSeen_nodup (l : List String) : (firstSeen l).Nodup :=
  foldl_addToSet_nodup l [] List.nodup_nil

/-- firstSeen of a one-element extension is a set-insertion. -/
theorem firstSeen_concat (l : List String) (x : String) :
    firstSeen (l ++ [x]) = addToSet (firstSeen l) x := by
  simp [firstSeen, List.foldl_append]

/-- The conditional group update keeps the key column unchanged. -/
theorem map_fst_condMap (acc : List (String × GroupInfo)) (s : String)
    (f : GroupInfo → GroupInfo) :
    (acc.map (fun kv => if kv.1 = s then (kv.1, f kv.2) else kv)).map Prod.fst =
      acc.map Prod.fst := by
  induction acc with
  | nil => rfl
  | cons kv t ih =>
    by_cases h : kv.1 = s <;> simp [h, ih]

/-- The conditional group update is the identity when the key is
absent. -/
theorem condMap_id (acc : List (String × GroupInfo)) (s : String)
    (f : GroupInfo → GroupInfo) (h : s ∉ acc.map Prod.fst) :
    acc.map (fun kv => if kv.1 = s then (kv.1, f kv.2) else kv) = acc := by
  induction acc with
  | nil => rfl
  | cons kv t ih =>
    have h1 : kv.1 ≠ s := fun he => h (by simp [he])
    have h2 : s ∉ t.map Prod.fst := fun hm => h (by simp [hm])
    simp [h1, ih h2]

/-- One grouping step inserts the source into the key column. -/
theorem updateGroup_keys (acc : List (String × GroupInfo)) (d : Document) :
    (updateGroup acc d).map Prod.fst = addToSet (acc.map Prod.fst) (effSource d) := by
  simp only [updateGroup]
  by_cases h : effSource d ∈ acc.map Prod.fst
  · rw [if_pos h, map_fst_condMap]
    simp only [addToSet, if_pos h]
  · rw [if_neg h]
    simp [addToSet, h]

/-- Updating the single entry of a duplicate-free key column bumps the
chunk-count sum by exactly one. -/
theorem sum_condMap (acc : List (String × GroupInfo)) (s : String) (d : Document)
    (hnd : ((acc.map Prod.fst)).Nodup) (hmem : s ∈ acc.map Prod.fst) :
    ((acc.map (fun kv => if kv.1 = s then (kv.1, bumpGroup d kv.2) else kv)).map
        (fun kv => kv.2.chunk_count)).sum =
      ((acc.map (fun kv => kv.2.chunk_count)).sum) + 1 := by
  induction acc with
  | nil => simp at hmem
  | cons kv t ih =>
    rw [List.map_cons, List.nodup_cons] at hnd
    by_cases h : kv.1 = s
    · have hs : s ∉ t.map Prod.fst := h ▸ hnd.1
      rw [List.map_cons, if_pos h, condMap_id t s (bumpGroup d) hs]
      simp [bumpGroup]
      omega
    · have hmem' : s ∈ t.map Prod.fst := by
        rcases List.mem_cons.mp hmem with he | ht
        · exact absurd he.symm h
        · exact ht
      rw [List.map_cons, if_neg h]
      simp only [List.map_cons, List.sum_cons, ih hnd.2 hmem']
      omega

/-- Processing one more document applies one grouping step. -/
theorem docInfo_concat (ds : List Document) (d : Document) :
    docInfo (ds ++ [d]) = updateGroup (docInfo ds) d := by
  simp [docInfo, List.foldl_append]

/-- The key column of the grouped information is the first-seen list of
the effective sources. -/
theorem docInfo_keys (docs : List Document) :
    (docInfo docs).map Prod.fst = firstSeen (docs.map effSource) := by
  induction docs using List.reverseRecOn with
  | nil => rfl
  | append_singleton ds d ih =>
    rw [docInfo_concat, updateGroup_keys, ih, List.map_append, List.map_singleton,
      firstSeen_concat]

/-- Each grouped entry is correct for its key: its name is the key, its
chunk count is the number of documents of that source, and its pages
are the distinct stringified page values of that source in first-seen
order. -/
theorem docInfo_mem (docs : List Document) :
    ∀ kg ∈ docInfo docs, kg.2.name = kg.1 ∧
      kg.2.chunk_count = (docs.filter (fun x => effSource x = kg.1)).length ∧
      kg.2.pages = firstSeen ((docs.filter (fun x => effSource x = kg.1)).map effPageStr) := by
  induction docs using List.reverseRecOn with
  | nil =>
    intro kg hkg
    simp [docInfo] at hkg
  | append_singleton ds d ih =>
    intro kg hkg
    rw [docInfo_concat] at hkg
    have hfilter : ∀ k : String, (ds ++ [d]).filter (fun x => effSource x = k) =
        ds.filter (fun x => effSource x = k) ++ (if effSource d = k then [d] else []) := by
      intro k
      rw [List.filter_append]
      congr 1
      by_cases hdk : effSource d = k <;> simp [hdk]
    simp only [updateGroup] at hkg
    by_cases hmem : effSource d ∈ (docInfo ds).map Prod.fst
    · rw [if_pos hmem] at hkg
      rw [List.mem_map] at hkg
      obtain ⟨kv, hkv, hkgeq⟩ := hkg
      obtain ⟨hn, hc, hp⟩ := ih kv hkv
      by_cases hks : kv.1 = effSource d
      · rw [if_pos hks] at hkgeq
        subst hkgeq
        dsimp only
        refine ⟨by simpa [bumpGroup] using hn, ?_, ?_⟩
        · rw [hfilter kv.1, if_pos hks.symm]
          simp [bumpGroup, hc]
        · rw [hfilter kv.1, if_pos hks.symm, List.map_append]
          simp [bumpGroup, hp, firstSeen_concat]
      · rw [if_neg hks] at hkgeq
        subst hkgeq
        refine ⟨hn, ?_, ?_⟩
        · rw [hfilter kv.1, if_neg (fun he => hks he.symm)]
          simpa using hc
        · rw [hfilter kv.1, if_neg (fun he => hks he.symm)]
          simpa using hp
    · rw [if_neg hmem] at hkg
      rcases List.mem_append.mp hkg with hold | hnew
      · obtain ⟨hn, hc, hp⟩ := ih kg hold
        have hkne : effSource d ≠ kg.1 := by
          intro he
          apply hmem
          rw [he]
          exact List.mem_map_of_mem Prod.fst hold
        refine ⟨hn, ?_, ?_⟩
        · rw [hfilter kg.1, if_neg hkne]
          simpa using hc
        · rw [hfilter kg.1, if_neg hkne]
          simpa using hp
      · rw [List.mem_singleton] at hnew
        subst hnew
        dsimp only
        have hnil : ds.filter (fun x => effSource x = effSource d) = [] := by
          rw [List.filter_eq_nil_iff]
          intro a ha hpa
          rw [decide_eq_true_eq] at hpa
          apply hmem
          rw [docInfo_keys, mem_firstSeen, List.mem_map]
          exact ⟨a, ha, hpa⟩
        refine ⟨rfl, ?_, ?_⟩
        · rw [hfilter (effSource d), if_pos rfl, hnil]
          simp [bumpGroup]
        · rw [hfilter (effSource d), if_pos rfl, hnil]
          simp [bumpGroup, firstSeen, addToSet]

/-- The chunk counts of the grouped information sum to the number of
documents. -/
theorem docInfo_sum (docs : List Document) :
    ((docInfo docs).map (fun kg => kg.2.chunk_count)).sum = docs.length := by
  induction docs using List.reverseRecOn with
  | nil => rfl
  | append_singleton ds d ih =>
    rw [docInfo_concat]
    simp only [updateGroup]
    by_cases hmem : effSource d ∈ (docInfo ds).map Prod.fst
    · rw [if_pos hmem]
      have hnd : ((docInfo ds).map Prod.fst).Nodup := by
        rw [docInfo_keys]
        exact firstSeen_nodup _
      rw [sum_condMap _ _ d hnd hmem, ih]
      simp
    · rw [if_neg hmem]
      simp [ih, bumpGroup]

/-- C6: get_document_list fails with the fixed message on an absent or
empty collection; on a non-empty collection it succeeds with one
catalog entry per distinct effective source in first-seen order,
total_documents equal to the number of distinct sources, chunk counts
summing to the number of documents, and each page_count counting the
distinct stringified page values of its source. -/
theorem C6_document_list (p : Pipeline) (args : ToolArgs) :
    ((p.has_documents = false ∨ p.documents = []) →
      execute_tool p "get_document_list" args =
        { success := false, error := some "No documents loaded in the knowledge base" }) ∧
    (p.has_documents = true → p.documents ≠ [] →
      ∃ es : List CatalogEntry,
        execute_tool p "get_document_list" args =
          { success := true
            message := some ("Found " ++ toString es.length ++ " documents in knowledge base")
            documents := some (DocsVal.catalog es)
            total_documents := some es.length } ∧
        es.map CatalogEntry.name = firstSeen (p.documents.map effSource) ∧
        es.length = (p.documents.map effSource).toFinset.card ∧
        (es.map CatalogEntry.total_chunks).sum = p.documents.length ∧
        (∀ e ∈ es, e.page_count =
          (firstSeen ((p.documents.filter (fun x => effSource x = e.name)).map
            effPageStr)).length)) := by
  constructor
  · intro h
    rcases h with h | h <;>
      simp [execute_tool, run_tool, get_document_list_h, h]
  · intro hd hne
    have hne' : p.documents.isEmpty = false := by
      cases hdoc : p.documents with
      | nil => exact absurd hdoc hne
      | cons a t => rfl
    refine ⟨(docInfo p.documents).map (fun kv => entryOfGroup kv.2), ?_, ?_, ?_, ?_, ?_⟩
    · simp [execute_tool, run_tool, get_document_list_h, hd, hne']
    · rw [List.map_map, ← docInfo_keys]
      exact List.map_congr_left (fun kv hkv => (docInfo_mem _ kv hkv).1)
    · have h1 : (p.documents.map effSource).toFinset =
          (firstSeen (p.documents.map effSource)).toFinset := by
        ext x
        simp [List.mem_toFinset, mem_firstSeen]
      rw [List.length_map, h1, List.toFinset_card_of_nodup (firstSeen_nodup _),
        ← docInfo_keys, List.length_map]
    · rw [List.map_map]
      have hfun : (CatalogEntry.total_chunks ∘ fun kv : String × GroupInfo =>
          entryOfGroup kv.2) = fun kg : String × GroupInfo => kg.2.chunk_count := rfl
      rw [hfun]
      exact docInfo_sum _
    · intro e he
      rw [List.mem_map] at he
      obtain ⟨kv, hkv, rfl⟩ := he
      obtain ⟨hn, hc, hp⟩ := docInfo_mem _ kv hkv
      simp only [entryOfGroup]
      simp only [hn, hp]

/-- Closed instantiation of C6_document_list: an empty collection fails
with the fixed message; the three-chunk collection over A.pdf and B.pdf
satisfies the catalog properties. -/
theorem C6_document_list_witness :
    (execute_tool emptyPipeline "get_document_list" [] =
      { success := false, error := some "No documents loaded in the knowledge base" }) ∧
    (∃ es : List CatalogEntry,
      execute_tool samplePipeline "get_document_list" [] =
        { success := true
          message := some ("Found " ++ toString es.length ++ " documents in knowledge base")
          documents := some (DocsVal.catalog es)
          total_documents := some es.length } ∧
      es.map CatalogEntry.name = firstSeen ([docA, docB, docC].map effSource) ∧
      es.length = ([docA, docB, docC].map effSource).toFinset.card ∧
      (es.map CatalogEntry.total_chunks).sum = 3 ∧
      (∀ e ∈ es, e.page_count =
        (firstSeen (([docA, docB, docC].filter (fun x => effSource x = e.name)).map
          effPageStr)).length)) :=
  ⟨(C6_document_list emptyPipeline []).1 (Or.inr rfl),
   (C6_document_list samplePipeline []).2 rfl (by decide)⟩
